import Mathlib

/-!
Verification development for the radiology wait-time analysis pipeline.

The repository is a small Python analysis pipeline consisting of three
scripts: a configuration-reading class (`class_to_read_config.py`), a
module of data-processing / plotting / statistics helpers
(`functions.py`), and a linear driver script (`main.py`).

This file gives a shallow Lean embedding of the data model and the
operations of those scripts and proves properties about them.  Pandas
DataFrames are modelled as named lists of cell columns, configuration
files as section/key-value association lists, and fallible Python
operations (exceptions) as `Option` / `Except` values.
-/

namespace Radiology

/-! ## Configuration model (`class_to_read_config.py`)

`configparser.ConfigParser` is modelled as a list of sections, each a
name paired with a list of key/value entries.  `ConfigParser.get`
raises `NoSectionError` when the section is absent and `NoOptionError`
when the key is absent from a present section; we model that with
`Except ConfigError`. -/

structure ConfigSection where
  name : String
  entries : List (String × String)
deriving DecidableEq, Repr

structure ConfigParser where
  sections : List ConfigSection
deriving DecidableEq, Repr

inductive ConfigError where
  | noSection (header : String)
  | noOption (header key : String)
deriving DecidableEq, Repr

/-- Find the (first) section with the given header name. -/
def ConfigParser.findSection (cp : ConfigParser) (header : String) : Option ConfigSection :=
  cp.sections.find? (fun s => s.name == header)

/-- Look up the (first) entry with the given key in a section. -/
def ConfigSection.lookupKey (sec : ConfigSection) (key : String) : Option String :=
  (sec.entries.find? (fun e => e.1 == key)).map Prod.snd

/-- Embedding of `configparser.ConfigParser.get(header, key)`. -/
def ConfigParser.get (cp : ConfigParser) (header key : String) : Except ConfigError String :=
  match cp.findSection header with
  | none => Except.error (ConfigError.noSection header)
  | some sec =>
    match sec.lookupKey key with
    | none => Except.error (ConfigError.noOption header key)
    | some v => Except.ok v

/-! Class-level constants of `ReadRadiologyConfig` (section headers and
the configuration keys used by the pipeline). -/

def PATHS : String := "file_paths"
def NAMES : String := "dataset_column_names"
def PLOTS : String := "output_plots"
def MISC : String := "miscellaneous"

def PATH_DATA : String := "dataset"
def PATH_PLOTS : String := "output_plots"

def SITE : String := "aidoc_site"
def RESULT : String := "aidoc_result"
def TIME_WAIT : String := "wait_time_minutes"
def TIME_SA : String := "study_aquistion_time"
def TIME_CO : String := "case_open_time"

def COLOR_PT : String := "color_point"
def COLOR_BE : String := "color_bar_edge"
def HEIGHT : String := "dimensions_height"
def WIDTH : String := "dimensions_width"
def SIZE_TICK : String := "label_size_tick"
def SIZE_AXIS : String := "label_size_axis"
def LABEL : String := "label_waittime"
def LEGEND : String := "legend_presence"
def LWD : String := "line_width"
def FORMAT : String := "output_format"
def PAD : String := "pad_from_axis_label_to_ticks"
def TICK_ROT : String := "tick_rotation"
def BAR : String := "type_barplot"
def HIST : String := "type_histogram"
def BOX : String := "type_boxplot"

def NEG : String := "aidoc_result_negative"
def POS : String := "aidoc_result_positive"
def TRANS : String := "column_transformed"
def DT_SA : String := "datetime_format_for_study_aquistion"
def DT_CO : String := "datetime_format_for_case_open"
def DT_MO : String := "datetime_format_month"
def MONTH : String := "datetime_month"
def TIME : String := "datetime_time"
def SECONDS : String := "datetime_seconds_in_regex"

/-- Embedding of `ReadRadiologyConfig.get_path` (default header `PATHS`). -/
def get_path (cp : ConfigParser) (key : String) : Except ConfigError String :=
  cp.get PATHS key

/-- Embedding of `ReadRadiologyConfig.get_column_name` (default header `NAMES`). -/
def get_column_name (cp : ConfigParser) (key : String) : Except ConfigError String :=
  cp.get NAMES key

/-- Embedding of `ReadRadiologyConfig.get_plot_param` (default header `PLOTS`). -/
def get_plot_param (cp : ConfigParser) (key : String) : Except ConfigError String :=
  cp.get PLOTS key

/-- Embedding of `ReadRadiologyConfig.get_misc` (default header `MISC`). -/
def get_misc (cp : ConfigParser) (key : String) : Except ConfigError String :=
  cp.get MISC key

/-! ### The filesystem and `read_config`

`configparser.ConfigParser.read(path)` silently skips files that do not
exist: the parser simply ends up with no sections.  We model the
filesystem as an association list from paths to (already parsed)
configuration contents; `read_config` looks the path up and yields the
empty configuration when the file is missing. -/

structure FileSystem where
  files : List (String × ConfigParser)

/-- Embedding of `ReadRadiologyConfig.read_config` for a given filesystem:
a missing file is silently ignored (the parser stays empty). -/
def read_config (fs : FileSystem) (path : String) : ConfigParser :=
  match fs.files.find? (fun e => e.1 == path) with
  | some e => e.2
  | none => ⟨[]⟩

/-! ## Python value model and `add_list_item` (`functions.py`)

`add_list_item` is `[sublist + item for sublist in list_of_lists]`.
Python `+` concatenates two lists, adds two ints, concatenates two
strings; a list plus a non-list raises `TypeError`.  We model dynamic
Python values with `PyVal` and `+` with the fallible `pyAdd`. -/

inductive PyVal where
  | int (n : Int)
  | str (s : String)
  | list (xs : List PyVal)

/-- Python `+` on dynamic values: defined on two lists, two ints, or two
strings; every mixed application raises `TypeError` (here: `none`). -/
def pyAdd : PyVal → PyVal → Option PyVal
  | PyVal.list xs, PyVal.list ys => some (PyVal.list (xs ++ ys))
  | PyVal.int a, PyVal.int b => some (PyVal.int (a + b))
  | PyVal.str a, PyVal.str b => some (PyVal.str (a ++ b))
  | _, _ => none

/-- Embedding of `add_list_item`: the comprehension
`[sublist + item for sublist in list_of_lists]`, failing (as the
comprehension would) on the first element whose `+` raises. -/
def add_list_item : List PyVal → PyVal → Option (List PyVal)
  | [], _ => some []
  | sub :: rest, item =>
    match pyAdd sub item, add_list_item rest item with
    | some v, some vs => some (v :: vs)
    | _, _ => none

/-! ## Datetime model (`pd.to_datetime` with an explicit `format`, and
`Series.dt.strftime`)

`add_dt_to_df` parses a string column with an explicit `strptime`-style
format and derives a new column with `strftime`.  We implement the
directives the pipeline can use (`%Y %m %d %H %M %S` for parsing, plus
`%B`, the full month name, for printing); any other directive fails to
parse, and a string with unparsed leftovers fails, as
`pd.to_datetime(..., format=...)` raises in both of those cases. -/

structure DateTime where
  year : Nat
  month : Nat
  day : Nat
  hour : Nat
  minute : Nat
  second : Nat
deriving DecidableEq, Repr

/-- Full English month name, as `strftime`'s `%B` directive prints it. -/
def monthName : Nat → String
  | 1 => "January"
  | 2 => "February"
  | 3 => "March"
  | 4 => "April"
  | 5 => "May"
  | 6 => "June"
  | 7 => "July"
  | 8 => "August"
  | 9 => "September"
  | 10 => "October"
  | 11 => "November"
  | 12 => "December"
  | _ => ""

/-- Zero-padded two-digit decimal rendering, as `%m %d %H %M %S` print. -/
def twoDigit (n : Nat) : String :=
  if n < 10 then "0" ++ toString n else toString n

def strftimeAux : List Char → DateTime → String
  | [], _ => ""
  | '%' :: c :: rest, d =>
    (match c with
     | 'Y' => toString d.year
     | 'm' => twoDigit d.month
     | 'd' => twoDigit d.day
     | 'H' => twoDigit d.hour
     | 'M' => twoDigit d.minute
     | 'S' => twoDigit d.second
     | 'B' => monthName d.month
     | c => String.singleton c) ++ strftimeAux rest d
  | c :: rest, d => String.singleton c ++ strftimeAux rest d

/-- Embedding of `datetime.strftime` for the directives used here. -/
def strftime (fmt : String) (d : DateTime) : String :=
  strftimeAux fmt.data d

/-- Consume up to `k` leading decimal digits of the input. -/
def takeDigitsUpTo : Nat → List Char → List Char × List Char
  | 0, cs => ([], cs)
  | _ + 1, [] => ([], [])
  | k + 1, c :: cs =>
    if c.isDigit then
      let p := takeDigitsUpTo k cs
      (c :: p.1, p.2)
    else ([], c :: cs)

def digitsToNat (ds : List Char) : Nat :=
  ds.foldl (fun a c => a * 10 + (c.toNat - 48)) 0

/-- Read a numeric field of at most `width` digits, requiring at least
one digit and a value within `[lo, hi]` (as `strptime` validates). -/
def readField (width lo hi : Nat) (cs : List Char) : Option (Nat × List Char) :=
  let p := takeDigitsUpTo width cs
  if p.1.isEmpty then none
  else
    let n := digitsToNat p.1
    if lo ≤ n ∧ n ≤ hi then some (n, p.2) else none

def strptimeAux : List Char → List Char → DateTime → Option DateTime
  | [], [], d => some d
  | [], _ :: _, _ => none
  | '%' :: 'Y' :: fr, cs, d =>
    match readField 4 0 9999 cs with
    | some p => strptimeAux fr p.2 { d with year := p.1 }
    | none => none
  | '%' :: 'm' :: fr, cs, d =>
    match readField 2 1 12 cs with
    | some p => strptimeAux fr p.2 { d with month := p.1 }
    | none => none
  | '%' :: 'd' :: fr, cs, d =>
    match readField 2 1 31 cs with
    | some p => strptimeAux fr p.2 { d with day := p.1 }
    | none => none
  | '%' :: 'H' :: fr, cs, d =>
    match readField 2 0 23 cs with
    | some p => strptimeAux fr p.2 { d with hour := p.1 }
    | none => none
  | '%' :: 'M' :: fr, cs, d =>
    match readField 2 0 59 cs with
    | some p => strptimeAux fr p.2 { d with minute := p.1 }
    | none => none
  | '%' :: 'S' :: fr, cs, d =>
    match readField 2 0 59 cs with
    | some p => strptimeAux fr p.2 { d with second := p.1 }
    | none => none
  | '%' :: _ :: _, _, _ => none
  | _ :: _, [], _ => none
  | fc :: fr, c :: cs, d => if fc == c then strptimeAux fr cs d else none

/-- Embedding of parsing one string under a `strptime`-style format, with
`strptime`'s defaults (year 1900, month 1, day 1) for absent fields. -/
def strptime (fmt s : String) : Option DateTime :=
  strptimeAux fmt.data s.data ⟨1900, 1, 1, 0, 0, 0⟩

/-! ## DataFrame model

A pandas DataFrame is modelled as an ordered list of named columns of
cells.  A cell is a dynamically typed pandas value: a string, a parsed
datetime, a boolean, or an integer. -/

inductive Cell where
  | str (s : String)
  | dt (d : DateTime)
  | boolean (b : Bool)
  | num (n : Int)
deriving DecidableEq, Repr

structure DataFrame where
  cols : List (String × List Cell)
deriving DecidableEq, Repr

/-- Column selection `df[name]` (the claims below always require the
column to be present; a missing column is modelled as the empty list
where a total function is convenient). -/
def DataFrame.col (df : DataFrame) (name : String) : List Cell :=
  match df.cols.find? (fun c => c.1 == name) with
  | some c => c.2
  | none => []

/-- Column assignment `df[name] = vals`: overwrite an existing column in
place, otherwise append a new column at the end, as pandas does. -/
def DataFrame.assign (df : DataFrame) (name : String) (vals : List Cell) : DataFrame :=
  if df.cols.any (fun c => c.1 == name) then
    ⟨df.cols.map (fun c => if c.1 == name then (c.1, vals) else c)⟩
  else
    ⟨df.cols ++ [(name, vals)]⟩

/-- One cell under `pd.to_datetime(..., format=fmt)`: a string is parsed
(failing as the library raises), a datetime passes through, and any
other cell type fails. -/
def parseCell (fmt : String) : Cell → Option Cell
  | Cell.str s => (strptime fmt s).map Cell.dt
  | Cell.dt d => some (Cell.dt d)
  | _ => none

/-- A whole column under `pd.to_datetime`: fails if any cell fails. -/
def parseColumn (fmt : String) : List Cell → Option (List Cell)
  | [] => some []
  | c :: cs =>
    match parseCell fmt c, parseColumn fmt cs with
    | some d, some ds => some (d :: ds)
    | _, _ => none

/-- The derived column `df[colname].dt.strftime(dt_mo_fmt)` applied to an
already-converted (all-datetime) column. -/
def monthColumn (dt_mo_fmt : String) (cells : List Cell) : List Cell :=
  cells.map (fun c =>
    match c with
    | Cell.dt d => Cell.str (strftime dt_mo_fmt d)
    | c => c)

/-- Embedding of `add_dt_to_df`: convert `colname` to datetime in place,
then add the derived column named `colname ++ "_" ++ dt_mo` holding
`strftime dt_mo_fmt` of each parsed value.  A missing column or any
unparseable cell makes the whole call fail, as the library raises. -/
def add_dt_to_df (df : DataFrame) (colname dt_format dt_mo dt_mo_fmt : String) :
    Option DataFrame :=
  match df.cols.find? (fun c => c.1 == colname) with
  | none => none
  | some c =>
    match parseColumn dt_format c.2 with
    | none => none
    | some parsed =>
      let df1 := df.assign colname parsed
      some (df1.assign (colname ++ "_" ++ dt_mo) (monthColumn dt_mo_fmt parsed))

/-- The datetime loop of `main.py`: apply `add_dt_to_df` to each
(column, format) pair in turn; the first failure halts the run. -/
def applyDtColumns (dt_mo dt_mo_fmt : String) :
    DataFrame → List (String × String) → Option DataFrame
  | df, [] => some df
  | df, p :: rest =>
    match add_dt_to_df df p.1 p.2 dt_mo dt_mo_fmt with
    | none => none
    | some df1 => applyDtColumns dt_mo dt_mo_fmt df1 rest

/-! ## Boolean recode step (`main.py`)

The main script recodes the AI-result boolean column with
`Series.replace({True: pos, False: neg})`: matching cells are replaced,
all other cells are left untouched. -/

/-- One column under `replace({True: pos, False: neg})`. -/
def replace_bool_with_labels (pos neg : String) (cells : List Cell) : List Cell :=
  cells.map (fun c =>
    match c with
    | Cell.boolean true => Cell.str pos
    | Cell.boolean false => Cell.str neg
    | c => c)

/-- The boolean-recode block of `main.py`: replace within the named
column of the DataFrame, leaving every other column as it is. -/
def recode_bool_column (df : DataFrame) (colname pos neg : String) : DataFrame :=
  ⟨df.cols.map (fun c =>
    if c.1 == colname then (c.1, replace_bool_with_labels pos neg c.2) else c)⟩

/-! ## Welch t-test helper (`functions.py`)

`perform_twosample_welch_ttest` computes `df[cat].unique()` (distinct
values in order of first appearance), selects the rows whose category
equals the first and the second distinct value, and hands the two
numeric samples to `scipy.stats.ttest_ind(..., equal_var=False)`,
returning that library result directly.  The library function is a
parameter of the embedding, so "returns the result unchanged" is
expressed by quantifying over it.  Indexing `cats[1]` with fewer than
two distinct values raises, which the embedding models as `none`. -/

/-- Embedding of `Series.unique()`: distinct values in order of first
appearance (`seen` accumulates the values already emitted). -/
def uniqueAux : List Cell → List Cell → List Cell
  | [], _ => []
  | x :: xs, seen =>
    if x ∈ seen then uniqueAux xs seen
    else x :: uniqueAux xs (x :: seen)

def uniqueInOrder (l : List Cell) : List Cell :=
  uniqueAux l []

/-- The numeric sample `df.loc[df[c] == v, n]`: values of column `n` at
the rows where column `c` holds `v` (columns are aligned by position). -/
def rowsWithCat (df : DataFrame) (c n : String) (v : Cell) : List Cell :=
  (((df.col c).zip (df.col n)).filter (fun r => r.1 == v)).map Prod.snd

/-- Embedding of `perform_twosample_welch_ttest`, parametric in the
library's `ttest_ind`; its third argument is `equal_var`. -/
def perform_twosample_welch_ttest {α : Type} (ttest_ind : List Cell → List Cell → Bool → α)
    (df : DataFrame) (column_name_cat column_name_num : String) : Option α :=
  match uniqueInOrder (df.col column_name_cat) with
  | c0 :: c1 :: _ =>
    some (ttest_ind
      (rowsWithCat df column_name_cat column_name_num c0)
      (rowsWithCat df column_name_cat column_name_num c1)
      false)
  | _ => none

/-! ## Plot file paths (`functions.py`)

Each plot helper saves its single figure with
`savefig(f'{path}{plot_name}{plot_format}')` where
`plot_name = f'{plot_type}_{x_label}'`; `x_label` is the plotted
column's name (`plot_data.columns[0]` for the histogram and box plot,
and the value-counts index name — the plotted column's name — for the
bar plot).  We embed the path computation of each helper. -/

/-- Name of the first column of a DataFrame (`plot_data.columns[0]`). -/
def firstColName (df : DataFrame) : String :=
  match df.cols with
  | c :: _ => c.1
  | [] => ""

/-- The path `plot_hist` hands to `savefig`. -/
def plot_hist_savepath (plot_data : DataFrame) (plot_type path plot_format : String) : String :=
  let plot_name := plot_type ++ "_" ++ firstColName plot_data
  path ++ plot_name ++ plot_format

/-- The path `plot_bar` hands to `savefig` (`x_label` is the
value-counts index name, i.e. the plotted column's name). -/
def plot_bar_savepath (x_label : String) (plot_type path plot_format : String) : String :=
  let plot_name := plot_type ++ "_" ++ x_label
  path ++ plot_name ++ plot_format

/-- The path `plot_box` hands to `savefig` (`x_label` is
`plot_data.columns[0]`). -/
def plot_box_savepath (plot_data : DataFrame) (plot_type path plot_format : String) : String :=
  let plot_name := plot_type ++ "_" ++ firstColName plot_data
  path ++ plot_name ++ plot_format

/-- The path shape the specification describes: output directory, then
plot type, underscore, column name, and output-format extension. -/
def specPlotPath (dir plot_type colname fmt : String) : String :=
  dir ++ plot_type ++ "_" ++ colname ++ fmt

/-! ## Default-parameter binding at import time (`functions.py`)

In Python, a default-parameter expression is evaluated once, when the
`def` statement runs (at module import).  `functions.py` computes every
config-derived default against the module-level `cfg` at that moment.
We embed the import of `functions.py` as the construction of a record
of those bound default values from the import-time configuration
(failing, as the import would, when a getter or an `int()` conversion
fails), and each later call as resolving its omitted arguments against
that record — never against whatever configuration is current at call
time. -/

structure AddDtDefaults where
  dt_mo : String
  dt_mo_fmt : String
deriving DecidableEq, Repr

structure PlotSizeDefaults where
  plot_width : Int
  plot_height : Int
deriving DecidableEq, Repr

structure PlotAxesDefaults where
  label_size : Int
  label_pad : Int
  tick_label_size : Int
  tick_rot : String
  legend_bool : Bool
deriving DecidableEq, Repr

structure PlotHistDefaults where
  x_label_nice : String
  plot_type : String
  path : String
  plot_format : String
deriving DecidableEq, Repr

structure PlotBarDefaults where
  time_keyword : String
  plot_type : String
  edge_color : String
  path : String
  plot_format : String
deriving DecidableEq, Repr

structure PlotBoxDefaults where
  time_keyword : String
  plot_type : String
  line_width : Int
  point_color : String
  legend_size : Int
  path : String
  plot_format : String
deriving DecidableEq, Repr

/-- The config-derived default values of every helper of `functions.py`,
as bound when the module's `def` statements execute at import. -/
structure FunctionsModuleState where
  addDt : AddDtDefaults
  plotSize : PlotSizeDefaults
  plotAxes : PlotAxesDefaults
  plotHist : PlotHistDefaults
  plotBar : PlotBarDefaults
  plotBox : PlotBoxDefaults
deriving DecidableEq, Repr

/-- Decimal digits to a number, `none` on empty or non-digit input. -/
def parseIntDigits (cs : List Char) : Option Nat :=
  if cs.isEmpty then none
  else if cs.all Char.isDigit then some (digitsToNat cs) else none

/-- Python's `int(...)` on a plain decimal string (optional sign),
raising (`none`) on anything else. -/
def pyInt (s : String) : Option Int :=
  match s.data with
  | '-' :: rest => (parseIntDigits rest).map (fun n => -(n : Int))
  | cs => (parseIntDigits cs).map (fun n => (n : Int))

/-- A getter whose value feeds Python's `int(...)` at import time. -/
def getIntParam (e : Except ConfigError String) : Option Int :=
  e.toOption.bind pyInt

def importAddDt (cp : ConfigParser) : Option AddDtDefaults := do
  let a ← (get_misc cp MONTH).toOption
  let b ← (get_misc cp DT_MO).toOption
  pure ⟨a, b⟩

def importPlotSize (cp : ConfigParser) : Option PlotSizeDefaults := do
  let a ← getIntParam (get_plot_param cp WIDTH)
  let b ← getIntParam (get_plot_param cp HEIGHT)
  pure ⟨a, b⟩

def importPlotAxes (cp : ConfigParser) : Option PlotAxesDefaults := do
  let a ← getIntParam (get_plot_param cp SIZE_AXIS)
  let b ← getIntParam (get_plot_param cp PAD)
  let c ← getIntParam (get_plot_param cp SIZE_TICK)
  let d ← (get_plot_param cp TICK_ROT).toOption
  let e ← (get_plot_param cp LEGEND).toOption
  pure ⟨a, b, c, d, e == "True"⟩

def importPlotHist (cp : ConfigParser) : Option PlotHistDefaults := do
  let a ← (get_plot_param cp LABEL).toOption
  let b ← (get_plot_param cp HIST).toOption
  let c ← (get_path cp PATH_PLOTS).toOption
  let d ← (get_plot_param cp FORMAT).toOption
  pure ⟨a, b, c, d⟩

def importPlotBar (cp : ConfigParser) : Option PlotBarDefaults := do
  let a ← (get_misc cp TIME).toOption
  let b ← (get_plot_param cp BAR).toOption
  let c ← (get_plot_param cp COLOR_BE).toOption
  let d ← (get_path cp PATH_PLOTS).toOption
  let e ← (get_plot_param cp FORMAT).toOption
  pure ⟨a, b, c, d, e⟩

def importPlotBox (cp : ConfigParser) : Option PlotBoxDefaults := do
  let a ← (get_misc cp TIME).toOption
  let b ← (get_plot_param cp BOX).toOption
  let c ← getIntParam (get_plot_param cp LWD)
  let d ← (get_plot_param cp COLOR_PT).toOption
  let e ← getIntParam (get_plot_param cp SIZE_TICK)
  let f ← (get_path cp PATH_PLOTS).toOption
  let g ← (get_plot_param cp FORMAT).toOption
  pure ⟨a, b, c, d, e, f, g⟩

/-- Embedding of importing `functions.py` against configuration `cp`:
every default-parameter expression of the module's six helpers is
evaluated now, against `cp`; a failing getter or `int()` conversion
makes the import itself fail. -/
def importFunctions (cp : ConfigParser) : Option FunctionsModuleState := do
  let a ← importAddDt cp
  let b ← importPlotSize cp
  let c ← importPlotAxes cp
  let d ← importPlotHist cp
  let e ← importPlotBar cp
  let f ← importPlotBox cp
  pure ⟨a, b, c, d, e, f⟩

/-! Each helper call resolves an omitted (defaulted) argument from the
module state bound at import; the configuration current at call time
(`currentCfg`) plays no part in the resolution, exactly as in Python,
where the default expressions were already evaluated at `def` time. -/

def add_dt_resolved_defaults (currentCfg : ConfigParser) (m : FunctionsModuleState)
    (dt_mo_arg dt_mo_fmt_arg : Option String) : String × String :=
  (dt_mo_arg.getD m.addDt.dt_mo, dt_mo_fmt_arg.getD m.addDt.dt_mo_fmt)

def set_plot_size_resolved_defaults (currentCfg : ConfigParser) (m : FunctionsModuleState)
    (w_arg h_arg : Option Int) : Int × Int :=
  (w_arg.getD m.plotSize.plot_width, h_arg.getD m.plotSize.plot_height)

def set_plot_axes_resolved_defaults (currentCfg : ConfigParser) (m : FunctionsModuleState)
    (size_arg pad_arg tick_arg : Option Int) (rot_arg : Option String)
    (legend_arg : Option Bool) : Int × Int × Int × String × Bool :=
  (size_arg.getD m.plotAxes.label_size, pad_arg.getD m.plotAxes.label_pad,
   tick_arg.getD m.plotAxes.tick_label_size, rot_arg.getD m.plotAxes.tick_rot,
   legend_arg.getD m.plotAxes.legend_bool)

def plot_hist_resolved_defaults (currentCfg : ConfigParser) (m : FunctionsModuleState)
    (label_arg type_arg path_arg fmt_arg : Option String) :
    String × String × String × String :=
  (label_arg.getD m.plotHist.x_label_nice, type_arg.getD m.plotHist.plot_type,
   path_arg.getD m.plotHist.path, fmt_arg.getD m.plotHist.plot_format)

def plot_bar_resolved_defaults (currentCfg : ConfigParser) (m : FunctionsModuleState)
    (time_arg type_arg edge_arg path_arg fmt_arg : Option String) :
    String × String × String × String × String :=
  (time_arg.getD m.plotBar.time_keyword, type_arg.getD m.plotBar.plot_type,
   edge_arg.getD m.plotBar.edge_color, path_arg.getD m.plotBar.path,
   fmt_arg.getD m.plotBar.plot_format)

def plot_box_resolved_defaults (currentCfg : ConfigParser) (m : FunctionsModuleState)
    (time_arg type_arg : Option String) (lwd_arg : Option Int)
    (pt_arg : Option String) (legsize_arg : Option Int)
    (path_arg fmt_arg : Option String) :
    String × String × Int × String × Int × String × String :=
  (time_arg.getD m.plotBox.time_keyword, type_arg.getD m.plotBox.plot_type,
   lwd_arg.getD m.plotBox.line_width, pt_arg.getD m.plotBox.point_color,
   legsize_arg.getD m.plotBox.legend_size, path_arg.getD m.plotBox.path,
   fmt_arg.getD m.plotBox.plot_format)

/-! ## A concrete sample configuration

A small but complete configuration of the shape `config.ini` must have
for `functions.py` to import, used by concrete witnesses below. -/

def sampleConfig : ConfigParser :=
  ⟨[⟨"file_paths", [("dataset", "radiology.csv"), ("output_plots", "plots/")]⟩,
    ⟨"dataset_column_names", [("aidoc_result", "aidoc_result")]⟩,
    ⟨"output_plots",
      [("dimensions_width", "12"), ("dimensions_height", "8"),
       ("label_size_axis", "14"), ("pad_from_axis_label_to_ticks", "10"),
       ("label_size_tick", "12"), ("tick_rotation", "45"),
       ("legend_presence", "True"), ("label_waittime", "Wait Time"),
       ("type_histogram", "histogram"), ("type_barplot", "barplot"),
       ("type_boxplot", "boxplot"), ("output_format", ".png"),
       ("color_bar_edge", "black"), ("color_point", "white"),
       ("line_width", "2")]⟩,
    ⟨"miscellaneous",
      [("datetime_month", "month"), ("datetime_format_month", "%B"),
       ("datetime_time", "time")]⟩]⟩

/-- The module state `importFunctions` produces from `sampleConfig`. -/
def sampleModuleState : FunctionsModuleState :=
  ⟨⟨"month", "%B"⟩, ⟨12, 8⟩, ⟨14, 10, 12, "45", true⟩,
   ⟨"Wait Time", "histogram", "plots/", ".png"⟩,
   ⟨"time", "barplot", "black", "plots/", ".png"⟩,
   ⟨"time", "boxplot", 2, "white", 12, "plots/", ".png"⟩⟩

/-! ## Helper lemmas -/

theorem exceptToOption_ok {ε α : Type} (e : Except ε α) (v : α)
    (h : e.toOption = some v) : e = Except.ok v := by
  cases e <;> simp_all [Except.toOption]

theorem configGet_ok (cp : ConfigParser) (header key : String) (sec : ConfigSection)
    (v : String) (h1 : cp.findSection header = some sec)
    (h2 : sec.lookupKey key = some v) : cp.get header key = Except.ok v := by
  simp only [ConfigParser.get, h1, h2]

theorem configGet_noSec (cp : ConfigParser) (header key : String)
    (h1 : cp.findSection header = none) :
    cp.get header key = Except.error (ConfigError.noSection header) := by
  unfold ConfigParser.get
  rw [h1]

theorem configGet_noKey (cp : ConfigParser) (header key : String) (sec : ConfigSection)
    (h1 : cp.findSection header = some sec) (h2 : sec.lookupKey key = none) :
    cp.get header key = Except.error (ConfigError.noOption header key) := by
  simp only [ConfigParser.get, h1, h2]

/-! ## Claim theorems -/

/-- Claim C3: each configuration getter (`get_path`, `get_column_name`,
`get_plot_param`, `get_misc`) returns the string stored under its fixed
section and the given key when both are present, and fails with a
`NoSectionError` when the section is absent or a `NoOptionError` when
the key is absent from a present section. -/
theorem claim_C3 (cp : ConfigParser) (key : String) :
    ((∀ sec v, cp.findSection PATHS = some sec → sec.lookupKey key = some v →
        get_path cp key = Except.ok v) ∧
      (cp.findSection PATHS = none →
        get_path cp key = Except.error (ConfigError.noSection PATHS)) ∧
      (∀ sec, cp.findSection PATHS = some sec → sec.lookupKey key = none →
        get_path cp key = Except.error (ConfigError.noOption PATHS key))) ∧
    ((∀ sec v, cp.findSection NAMES = some sec → sec.lookupKey key = some v →
        get_column_name cp key = Except.ok v) ∧
      (cp.findSection NAMES = none →
        get_column_name cp key = Except.error (ConfigError.noSection NAMES)) ∧
      (∀ sec, cp.findSection NAMES = some sec → sec.lookupKey key = none →
        get_column_name cp key = Except.error (ConfigError.noOption NAMES key))) ∧
    ((∀ sec v, cp.findSection PLOTS = some sec → sec.lookupKey key = some v →
        get_plot_param cp key = Except.ok v) ∧
      (cp.findSection PLOTS = none →
        get_plot_param cp key = Except.error (ConfigError.noSection PLOTS)) ∧
      (∀ sec, cp.findSection PLOTS = some sec → sec.lookupKey key = none →
        get_plot_param cp key = Except.error (ConfigError.noOption PLOTS key))) ∧
    ((∀ sec v, cp.findSection MISC = some sec → sec.lookupKey key = some v →
        get_misc cp key = Except.ok v) ∧
      (cp.findSection MISC = none →
        get_misc cp key = Except.error (ConfigError.noSection MISC)) ∧
      (∀ sec, cp.findSection MISC = some sec → sec.lookupKey key = none →
        get_misc cp key = Except.error (ConfigError.noOption MISC key))) :=
  ⟨⟨fun sec v h1 h2 => configGet_ok cp PATHS key sec v h1 h2,
    fun h1 => configGet_noSec cp PATHS key h1,
    fun sec h1 h2 => configGet_noKey cp PATHS key sec h1 h2⟩,
   ⟨fun sec v h1 h2 => configGet_ok cp NAMES key sec v h1 h2,
    fun h1 => configGet_noSec cp NAMES key h1,
    fun sec h1 h2 => configGet_noKey cp NAMES key sec h1 h2⟩,
   ⟨fun sec v h1 h2 => configGet_ok cp PLOTS key sec v h1 h2,
    fun h1 => configGet_noSec cp PLOTS key h1,
    fun sec h1 h2 => configGet_noKey cp PLOTS key sec h1 h2⟩,
   ⟨fun sec v h1 h2 => configGet_ok cp MISC key sec v h1 h2,
    fun h1 => configGet_noSec cp MISC key h1,
    fun sec h1 h2 => configGet_noKey cp MISC key sec h1 h2⟩⟩

/-- Witness for C3 at a concrete configuration: a present (section, key)
pair yields its stored value through `get_path`, and an absent section
makes `get_misc` fail. -/
theorem claim_C3_witness :
    get_path ⟨[⟨"file_paths", [("dataset", "radiology.csv")]⟩]⟩ "dataset" =
      Except.ok "radiology.csv" ∧
    get_misc ⟨[⟨"file_paths", [("dataset", "radiology.csv")]⟩]⟩ "dataset" =
      Except.error (ConfigError.noSection MISC) := by
  constructor
  · exact (claim_C3 ⟨[⟨"file_paths", [("dataset", "radiology.csv")]⟩]⟩ "dataset").1.1
      ⟨"file_paths", [("dataset", "radiology.csv")]⟩ "radiology.csv" (by rfl) (by rfl)
  · exact (claim_C3 ⟨[⟨"file_paths", [("dataset", "radiology.csv")]⟩]⟩ "dataset").2.2.2.2.1
      (by rfl)

/-- Claim C10: reading a nonexistent configuration file does not fail:
`read_config` yields the empty configuration, and the missing file only
surfaces at the first getter call, as a missing-section error. -/
theorem claim_C10 (fs : FileSystem) (path : String)
    (h : fs.files.find? (fun e => e.1 == path) = none) :
    read_config fs path = ConfigParser.mk [] ∧
    ∀ key, get_path (read_config fs path) key =
      Except.error (ConfigError.noSection PATHS) := by
  have hempty : read_config fs path = ConfigParser.mk [] := by
    unfold read_config
    rw [h]
  exact ⟨hempty, fun key => by rw [hempty]; rfl⟩

/-- Witness for C10: a filesystem without `config.ini` gives the empty
configuration and a failing first getter call. -/
theorem claim_C10_witness :
    read_config ⟨[("other.ini", ConfigParser.mk [])]⟩ "config.ini" = ConfigParser.mk [] ∧
    ∀ key, get_path (read_config ⟨[("other.ini", ConfigParser.mk [])]⟩ "config.ini") key =
      Except.error (ConfigError.noSection PATHS) :=
  claim_C10 ⟨[("other.ini", ConfigParser.mk [])]⟩ "config.ini" (by rfl)

/-- Claim C9: `add_list_item` maps a list of lists to a list of the same
length whose `i`-th element is the `i`-th input sublist concatenated
with the item (never mutating anything, being a pure function of its
input), and a non-list item fails, since list `+` non-list raises. -/
theorem claim_C9 (xss : List PyVal) (item : PyVal)
    (hlists : ∀ x ∈ xss, ∃ l, x = PyVal.list l) :
    (∀ li, item = PyVal.list li →
      ∃ res, add_list_item xss item = some res ∧
        res.length = xss.length ∧
        ∀ (i : Nat) (l : List PyVal), xss[i]? = some (PyVal.list l) → res[i]? = some (PyVal.list (l ++ li))) ∧
    ((∀ li, item ≠ PyVal.list li) → xss ≠ [] → add_list_item xss item = none) := by
  constructor
  · rintro li rfl
    induction xss with
    | nil => exact ⟨[], rfl, rfl, fun i l h => by simp at h⟩
    | cons x rest ih =>
      have hrest : ∀ y ∈ rest, ∃ l, y = PyVal.list l :=
        fun y hy => hlists y (List.mem_cons_of_mem x hy)
      obtain ⟨l0, rfl⟩ := hlists x (List.mem_cons_self x rest)
      obtain ⟨res, hres, hlen, hidx⟩ := ih hrest
      refine ⟨PyVal.list (l0 ++ li) :: res, ?_, by simp [hlen], ?_⟩
      · show add_list_item (PyVal.list l0 :: rest) (PyVal.list li) = _
        unfold add_list_item
        rw [hres]
        rfl
      · intro i l h
        match i with
        | 0 =>
          simp only [List.getElem?_cons_zero, Option.some_inj] at h
          cases h
          simp
        | j + 1 =>
          simp only [List.getElem?_cons_succ] at h ⊢
          exact hidx j l h
  · intro hnot hne
    match xss, hne with
    | x :: rest, _ =>
      obtain ⟨l0, rfl⟩ := hlists x (List.mem_cons_self x rest)
      have hadd : pyAdd (PyVal.list l0) item = none := by
        cases item with
        | int n => rfl
        | str s => rfl
        | list li => exact absurd rfl (hnot li)
      unfold add_list_item
      rw [hadd]

/-- Witness for C9: a two-sublist input with a list item succeeds
elementwise; an integer item makes the same call fail. -/
theorem claim_C9_witness :
    (∀ x ∈ [PyVal.list [PyVal.str "a"], PyVal.list []], ∃ l, x = PyVal.list l) ∧
    (∃ res, add_list_item [PyVal.list [PyVal.str "a"], PyVal.list []]
        (PyVal.list [PyVal.int 1]) = some res ∧
      res.length = [PyVal.list [PyVal.str "a"], PyVal.list []].length ∧
      ∀ (i : Nat) (l : List PyVal),
        [PyVal.list [PyVal.str "a"], PyVal.list []][i]? = some (PyVal.list l) →
        res[i]? = some (PyVal.list (l ++ [PyVal.int 1]))) ∧
    add_list_item [PyVal.list [PyVal.str "a"], PyVal.list []] (PyVal.int 1) = none := by
  have hl : ∀ x ∈ [PyVal.list [PyVal.str "a"], PyVal.list []], ∃ l, x = PyVal.list l := by
    intro x hx
    simp only [List.mem_cons, List.not_mem_nil, or_false] at hx
    rcases hx with rfl | rfl
    · exact ⟨_, rfl⟩
    · exact ⟨_, rfl⟩
  refine ⟨hl, ?_, ?_⟩
  · exact (claim_C9 _ _ hl).1 [PyVal.int 1] rfl
  · exact (claim_C9 _ (PyVal.int 1) hl).2 (fun li h => by cases h) (by simp)

theorem recode_col_eq (df : DataFrame) (colname pos neg : String) :
    (recode_bool_column df colname pos neg).col colname
      = replace_bool_with_labels pos neg (df.col colname) := by
  obtain ⟨cols⟩ := df
  unfold recode_bool_column DataFrame.col
  induction cols with
  | nil => rfl
  | cons c cs ih =>
    cases hb : (c.1 == colname) with
    | true =>
      have h : c.1 = colname := by simpa using hb
      simp [List.find?, hb, h]
    | false =>
      have h : ¬ c.1 = colname := by simpa using hb
      simpa [List.find?, hb, h] using ih

/-- Claim C1: on a column holding only the booleans `True` and `False`,
the boolean-recode step of `main.py` maps every `True` cell to the
configured positive label and every `False` cell to the configured
negative label, so afterwards the column holds only the two configured
label strings. -/
theorem claim_C1 (df : DataFrame) (colname pos neg : String)
    (hbool : ∀ c ∈ df.col colname, c = Cell.boolean true ∨ c = Cell.boolean false) :
    ((recode_bool_column df colname pos neg).col colname).length
      = (df.col colname).length ∧
    (∀ (i : Nat), (df.col colname)[i]? = some (Cell.boolean true) →
      ((recode_bool_column df colname pos neg).col colname)[i]? = some (Cell.str pos)) ∧
    (∀ (i : Nat), (df.col colname)[i]? = some (Cell.boolean false) →
      ((recode_bool_column df colname pos neg).col colname)[i]? = some (Cell.str neg)) ∧
    (∀ c ∈ (recode_bool_column df colname pos neg).col colname,
      c = Cell.str pos ∨ c = Cell.str neg) := by
  rw [recode_col_eq]
  unfold replace_bool_with_labels
  refine ⟨List.length_map _ _, ?_, ?_, ?_⟩
  · intro i h
    rw [List.getElem?_map, h]
    rfl
  · intro i h
    rw [List.getElem?_map, h]
    rfl
  · intro c hc
    rw [List.mem_map] at hc
    obtain ⟨a, ha, rfl⟩ := hc
    rcases hbool a ha with rfl | rfl
    · exact Or.inl rfl
    · exact Or.inr rfl

/-- Witness for C1: a concrete two-row boolean column is recoded to the
two configured labels exactly. -/
theorem claim_C1_witness :
    (∀ c ∈ (DataFrame.mk [("res", [Cell.boolean true, Cell.boolean false])]).col "res",
      c = Cell.boolean true ∨ c = Cell.boolean false) ∧
    (((recode_bool_column ⟨[("res", [Cell.boolean true, Cell.boolean false])]⟩
        "res" "positive" "negative").col "res").length
      = ((DataFrame.mk [("res", [Cell.boolean true, Cell.boolean false])]).col "res").length ∧
    (∀ (i : Nat),
      ((DataFrame.mk [("res", [Cell.boolean true, Cell.boolean false])]).col "res")[i]?
          = some (Cell.boolean true) →
      ((recode_bool_column ⟨[("res", [Cell.boolean true, Cell.boolean false])]⟩
          "res" "positive" "negative").col "res")[i]? = some (Cell.str "positive")) ∧
    (∀ (i : Nat),
      ((DataFrame.mk [("res", [Cell.boolean true, Cell.boolean false])]).col "res")[i]?
          = some (Cell.boolean false) →
      ((recode_bool_column ⟨[("res", [Cell.boolean true, Cell.boolean false])]⟩
          "res" "positive" "negative").col "res")[i]? = some (Cell.str "negative")) ∧
    (∀ c ∈ (recode_bool_column ⟨[("res", [Cell.boolean true, Cell.boolean false])]⟩
        "res" "positive" "negative").col "res",
      c = Cell.str "positive" ∨ c = Cell.str "negative")) :=
  ⟨by decide, claim_C1 ⟨[("res", [Cell.boolean true, Cell.boolean false])]⟩
    "res" "positive" "negative" (by decide)⟩

/-- Claim C5: each plot helper saves its single output file at the path
formed by the configured output directory, the configured plot-type
string, an underscore, the plotted column's name, and the configured
output-format extension. -/
theorem claim_C5 (df : DataFrame) (cname : String) (vals : List Cell)
    (rest : List (String × List Cell)) (dir ptype fmt barcol : String)
    (h : df.cols = (cname, vals) :: rest) :
    plot_hist_savepath df ptype dir fmt = specPlotPath dir ptype cname fmt ∧
    plot_box_savepath df ptype dir fmt = specPlotPath dir ptype cname fmt ∧
    plot_bar_savepath barcol ptype dir fmt = specPlotPath dir ptype barcol fmt := by
  have hfirst : firstColName df = cname := by
    unfold firstColName
    rw [h]
  refine ⟨?_, ?_, ?_⟩ <;>
    simp [plot_hist_savepath, plot_box_savepath, plot_bar_savepath, specPlotPath,
      hfirst, String.append_assoc]

/-- Witness for C5 at a concrete DataFrame, plot type, directory and
format: all three helpers write to the directory/type_column.format
path. -/
theorem claim_C5_witness :
    plot_hist_savepath ⟨[("wait_time_minutes", [])]⟩ "histogram" "plots/" ".png"
      = specPlotPath "plots/" "histogram" "wait_time_minutes" ".png" ∧
    plot_box_savepath ⟨[("wait_time_minutes", [])]⟩ "boxplot" "plots/" ".png"
      = specPlotPath "plots/" "boxplot" "wait_time_minutes" ".png" ∧
    plot_bar_savepath "aidoc_site" "boxplot" "plots/" ".png"
      = specPlotPath "plots/" "boxplot" "aidoc_site" ".png" := by
  have h1 := claim_C5 ⟨[("wait_time_minutes", [])]⟩ "wait_time_minutes" [] []
    "plots/" "histogram" ".png" "aidoc_site" rfl
  have h2 := claim_C5 ⟨[("wait_time_minutes", [])]⟩ "wait_time_minutes" [] []
    "plots/" "boxplot" ".png" "aidoc_site" rfl
  exact ⟨h1.1, h2.2.1, h2.2.2⟩

/-- Claim C7: every config-derived default of the six helpers of
`functions.py` is computed exactly once, against the configuration in
force at module import; a later call that omits those arguments
resolves them from that import-time binding, independently of whatever
configuration is current at call time. -/
theorem claim_C7 (cfg0 : ConfigParser) (m : FunctionsModuleState)
    (h : importFunctions cfg0 = some m) :
    (importAddDt cfg0 = some m.addDt ∧
     importPlotSize cfg0 = some m.plotSize ∧
     importPlotAxes cfg0 = some m.plotAxes ∧
     importPlotHist cfg0 = some m.plotHist ∧
     importPlotBar cfg0 = some m.plotBar ∧
     importPlotBox cfg0 = some m.plotBox) ∧
    (get_misc cfg0 MONTH = Except.ok m.addDt.dt_mo ∧
     get_misc cfg0 DT_MO = Except.ok m.addDt.dt_mo_fmt ∧
     getIntParam (get_plot_param cfg0 WIDTH) = some m.plotSize.plot_width ∧
     getIntParam (get_plot_param cfg0 HEIGHT) = some m.plotSize.plot_height) ∧
    (∀ cur1 cur2 : ConfigParser,
      (∀ a b, add_dt_resolved_defaults cur1 m a b = add_dt_resolved_defaults cur2 m a b) ∧
      (∀ a b, set_plot_size_resolved_defaults cur1 m a b
        = set_plot_size_resolved_defaults cur2 m a b) ∧
      (∀ a b c d e, set_plot_axes_resolved_defaults cur1 m a b c d e
        = set_plot_axes_resolved_defaults cur2 m a b c d e) ∧
      (∀ a b c d, plot_hist_resolved_defaults cur1 m a b c d
        = plot_hist_resolved_defaults cur2 m a b c d) ∧
      (∀ a b c d e, plot_bar_resolved_defaults cur1 m a b c d e
        = plot_bar_resolved_defaults cur2 m a b c d e) ∧
      (∀ a b c d e f g, plot_box_resolved_defaults cur1 m a b c d e f g
        = plot_box_resolved_defaults cur2 m a b c d e f g)) ∧
    (∀ cur : ConfigParser,
      add_dt_resolved_defaults cur m none none = (m.addDt.dt_mo, m.addDt.dt_mo_fmt) ∧
      set_plot_size_resolved_defaults cur m none none
        = (m.plotSize.plot_width, m.plotSize.plot_height) ∧
      set_plot_axes_resolved_defaults cur m none none none none none
        = (m.plotAxes.label_size, m.plotAxes.label_pad, m.plotAxes.tick_label_size,
           m.plotAxes.tick_rot, m.plotAxes.legend_bool) ∧
      plot_hist_resolved_defaults cur m none none none none
        = (m.plotHist.x_label_nice, m.plotHist.plot_type, m.plotHist.path,
           m.plotHist.plot_format) ∧
      plot_bar_resolved_defaults cur m none none none none none
        = (m.plotBar.time_keyword, m.plotBar.plot_type, m.plotBar.edge_color,
           m.plotBar.path, m.plotBar.plot_format) ∧
      plot_box_resolved_defaults cur m none none none none none none none
        = (m.plotBox.time_keyword, m.plotBox.plot_type, m.plotBox.line_width,
           m.plotBox.point_color, m.plotBox.legend_size, m.plotBox.path,
           m.plotBox.plot_format)) := by
  simp only [importFunctions, Option.pure_def, Option.bind_eq_bind, Option.bind_eq_some,
    Option.some_inj] at h
  obtain ⟨a, ha, b, hb, c, hc, d, hd, e, he, f, hf, hm⟩ := h
  subst hm
  refine ⟨⟨ha, hb, hc, hd, he, hf⟩, ?_, ?_, ?_⟩
  · simp only [importAddDt, importPlotSize, Option.pure_def, Option.bind_eq_bind,
      Option.bind_eq_some, Option.some_inj] at ha hb
    obtain ⟨x1, hx1, x2, hx2, hxa⟩ := ha
    obtain ⟨y1, hy1, y2, hy2, hyb⟩ := hb
    subst hxa
    subst hyb
    exact ⟨exceptToOption_ok _ _ hx1, exceptToOption_ok _ _ hx2, hy1, hy2⟩
  · intro cur1 cur2
    exact ⟨fun a b => rfl, fun a b => rfl, fun a b c d e => rfl, fun a b c d => rfl,
      fun a b c d e => rfl, fun a b c d e f g => rfl⟩
  · intro cur
    exact ⟨rfl, rfl, rfl, rfl, rfl, rfl⟩

/-- Witness for C7: importing against the concrete `sampleConfig` binds
the concrete default record `sampleModuleState`, whose values come from
the import-time getters. -/
theorem claim_C7_witness :
    importFunctions sampleConfig = some sampleModuleState ∧
    (get_misc sampleConfig MONTH = Except.ok sampleModuleState.addDt.dt_mo ∧
     get_misc sampleConfig DT_MO = Except.ok sampleModuleState.addDt.dt_mo_fmt ∧
     getIntParam (get_plot_param sampleConfig WIDTH)
       = some sampleModuleState.plotSize.plot_width ∧
     getIntParam (get_plot_param sampleConfig HEIGHT)
       = some sampleModuleState.plotSize.plot_height) ∧
    (∀ cur : ConfigParser,
      add_dt_resolved_defaults cur sampleModuleState none none
        = (sampleModuleState.addDt.dt_mo, sampleModuleState.addDt.dt_mo_fmt) ∧
      set_plot_size_resolved_defaults cur sampleModuleState none none
        = (sampleModuleState.plotSize.plot_width, sampleModuleState.plotSize.plot_height) ∧
      set_plot_axes_resolved_defaults cur sampleModuleState none none none none none
        = (sampleModuleState.plotAxes.label_size, sampleModuleState.plotAxes.label_pad,
           sampleModuleState.plotAxes.tick_label_size, sampleModuleState.plotAxes.tick_rot,
           sampleModuleState.plotAxes.legend_bool) ∧
      plot_hist_resolved_defaults cur sampleModuleState none none none none
        = (sampleModuleState.plotHist.x_label_nice, sampleModuleState.plotHist.plot_type,
           sampleModuleState.plotHist.path, sampleModuleState.plotHist.plot_format) ∧
      plot_bar_resolved_defaults cur sampleModuleState none none none none none
        = (sampleModuleState.plotBar.time_keyword, sampleModuleState.plotBar.plot_type,
           sampleModuleState.plotBar.edge_color, sampleModuleState.plotBar.path,
           sampleModuleState.plotBar.plot_format) ∧
      plot_box_resolved_defaults cur sampleModuleState none none none none none none none
        = (sampleModuleState.plotBox.time_keyword, sampleModuleState.plotBox.plot_type,
           sampleModuleState.plotBox.line_width, sampleModuleState.plotBox.point_color,
           sampleModuleState.plotBox.legend_size, sampleModuleState.plotBox.path,
           sampleModuleState.plotBox.plot_format)) := by
  have h : importFunctions sampleConfig = some sampleModuleState := by decide
  have hc := claim_C7 sampleConfig sampleModuleState h
  exact ⟨h, hc.2.1, hc.2.2.2⟩

theorem uniqueAux_sub : ∀ (l seen : List Cell) (x : Cell), x ∈ uniqueAux l seen → x ∈ l := by
  intro l
  induction l with
  | nil =>
    intro seen x h
    simp [uniqueAux] at h
  | cons a as ih =>
    intro seen x h
    by_cases hmem : a ∈ seen
    · simp only [uniqueAux, if_pos hmem] at h
      exact List.mem_cons_of_mem a (ih seen x h)
    · simp only [uniqueAux, if_neg hmem] at h
      rcases List.mem_cons.mp h with rfl | h2
      · exact List.mem_cons_self x as
      · exact List.mem_cons_of_mem a (ih (a :: seen) x h2)

theorem uniqueAux_mem_of_mem : ∀ (l seen : List Cell) (x : Cell),
    x ∈ l → x ∉ seen → x ∈ uniqueAux l seen := by
  intro l
  induction l with
  | nil =>
    intro seen x h _
    simp at h
  | cons a as ih =>
    intro seen x hx hns
    rcases List.mem_cons.mp hx with rfl | hx2
    · by_cases hmem : x ∈ seen
      · exact absurd hmem hns
      · simp only [uniqueAux, if_neg hmem]
        exact List.mem_cons_self x _
    · by_cases hmem : a ∈ seen
      · simp only [uniqueAux, if_pos hmem]
        exact ih seen x hx2 hns
      · simp only [uniqueAux, if_neg hmem]
        by_cases hxa : x = a
        · subst hxa
          exact List.mem_cons_self x _
        · refine List.mem_cons_of_mem a (ih (a :: seen) x hx2 ?_)
          intro hc
          rcases List.mem_cons.mp hc with h1 | h1
          · exact hxa h1
          · exact hns h1

theorem uniqueAux_nodup_disjoint : ∀ (l seen : List Cell),
    (∀ x ∈ uniqueAux l seen, x ∉ seen) ∧ (uniqueAux l seen).Nodup := by
  intro l
  induction l with
  | nil =>
    intro seen
    constructor
    · intro x h
      simp [uniqueAux] at h
    · simp [uniqueAux]
  | cons a as ih =>
    intro seen
    by_cases hmem : a ∈ seen
    · simpa only [uniqueAux, if_pos hmem] using ih seen
    · simp only [uniqueAux, if_neg hmem]
      obtain ⟨hdisj, hnd⟩ := ih (a :: seen)
      constructor
      · intro x hx hxs
        rcases List.mem_cons.mp hx with rfl | hx2
        · exact hmem hxs
        · exact hdisj x hx2 (List.mem_cons_of_mem a hxs)
      · refine List.nodup_cons.mpr ⟨?_, hnd⟩
        intro hc
        exact hdisj a hc (List.mem_cons_self a seen)

theorem uniqueInOrder_head (l : List Cell) (c0 : Cell) (rest : List Cell)
    (h : uniqueInOrder l = c0 :: rest) : l.head? = some c0 := by
  cases l with
  | nil => simp [uniqueInOrder, uniqueAux] at h
  | cons a as =>
    simp only [uniqueInOrder, uniqueAux, List.not_mem_nil, if_neg, List.cons.injEq,
      not_false_eq_true, if_false] at h
    rw [List.head?_cons, h.1]

theorem uniqueInOrder_mem (l : List Cell) (x : Cell) (h : x ∈ l) :
    x ∈ uniqueInOrder l :=
  uniqueAux_mem_of_mem l [] x h (by simp)

theorem uniqueInOrder_nodup (l : List Cell) : (uniqueInOrder l).Nodup :=
  (uniqueAux_nodup_disjoint l []).2

theorem filter_two_length (rows : List (Cell × Cell)) (c0 c1 : Cell) (hne : c0 ≠ c1)
    (hall : ∀ r ∈ rows, r.1 = c0 ∨ r.1 = c1) :
    (rows.filter (fun r => r.1 == c0)).length + (rows.filter (fun r => r.1 == c1)).length
      = rows.length := by
  induction rows with
  | nil => rfl
  | cons r rs ih =>
    have ih2 := ih (fun q hq => hall q (List.mem_cons_of_mem r hq))
    rcases hall r (List.mem_cons_self r rs) with h0 | h1
    · have e0 : (r.1 == c0) = true := by simp [h0]
      have e1 : (r.1 == c1) = false := by simp [h0, hne]
      simp only [List.filter_cons, e0, e1, Bool.false_eq_true, if_true, if_false,
        List.length_cons]
      omega
    · have e0 : (r.1 == c0) = false := by
        rw [h1]
        simp [Ne.symm hne]
      have e1 : (r.1 == c1) = true := by simp [h1]
      simp only [List.filter_cons, e0, e1, Bool.false_eq_true, if_true, if_false,
        List.length_cons]
      omega

/-- Claim C8: with at least two distinct category values,
`perform_twosample_welch_ttest` tests exactly the rows of the first two
distinct values in order of first appearance (the first is the column
head, the two are distinct, and rows of every other category are in
neither sample); with fewer than two distinct values it fails. -/
theorem claim_C8 {α : Type} (ttest_ind : List Cell → List Cell → Bool → α)
    (df : DataFrame) (c n : String) :
    (∀ c0 c1 crest, uniqueInOrder (df.col c) = c0 :: c1 :: crest →
      (df.col c).head? = some c0 ∧ c0 ≠ c1 ∧
      perform_twosample_welch_ttest ttest_ind df c n
        = some (ttest_ind (rowsWithCat df c n c0) (rowsWithCat df c n c1) false)) ∧
    ((uniqueInOrder (df.col c)).length < 2 →
      perform_twosample_welch_ttest ttest_ind df c n = none) := by
  constructor
  · intro c0 c1 crest h
    refine ⟨uniqueInOrder_head _ _ _ h, ?_, ?_⟩
    · have hnd := uniqueInOrder_nodup (df.col c)
      rw [h] at hnd
      have h1 := (List.nodup_cons.mp hnd).1
      intro hc
      exact h1 (by rw [hc]; exact List.mem_cons_self c1 crest)
    · unfold perform_twosample_welch_ttest
      rw [h]
  · intro hlen
    rcases hu : uniqueInOrder (df.col c) with _ | ⟨x, rest2⟩
    · unfold perform_twosample_welch_ttest
      rw [hu]
    · rcases rest2 with _ | ⟨y, r⟩
      · unfold perform_twosample_welch_ttest
        rw [hu]
      · rw [hu] at hlen
        simp only [List.length_cons] at hlen
        exfalso
        omega

/-- Witness for C8 at a three-category DataFrame: the helper compares
the samples of the first two categories in order of first appearance
and the third category's rows are in neither sample. -/
theorem claim_C8_witness :
    uniqueInOrder ((DataFrame.mk
        [("patient_class", [Cell.str "ER", Cell.str "ICU", Cell.str "ER", Cell.str "Ward"]),
         ("wait_time_minutes", [Cell.num 1, Cell.num 2, Cell.num 3, Cell.num 4])]).col
        "patient_class")
      = [Cell.str "ER", Cell.str "ICU", Cell.str "Ward"] ∧
    (((DataFrame.mk
        [("patient_class", [Cell.str "ER", Cell.str "ICU", Cell.str "ER", Cell.str "Ward"]),
         ("wait_time_minutes", [Cell.num 1, Cell.num 2, Cell.num 3, Cell.num 4])]).col
        "patient_class").head? = some (Cell.str "ER") ∧
      Cell.str "ER" ≠ Cell.str "ICU" ∧
      perform_twosample_welch_ttest (fun x y e => (x, y, e))
        ⟨[("patient_class", [Cell.str "ER", Cell.str "ICU", Cell.str "ER", Cell.str "Ward"]),
          ("wait_time_minutes", [Cell.num 1, Cell.num 2, Cell.num 3, Cell.num 4])]⟩
        "patient_class" "wait_time_minutes"
        = some ((fun x y e => (x, y, e))
            (rowsWithCat ⟨[("patient_class",
                [Cell.str "ER", Cell.str "ICU", Cell.str "ER", Cell.str "Ward"]),
               ("wait_time_minutes", [Cell.num 1, Cell.num 2, Cell.num 3, Cell.num 4])]⟩
              "patient_class" "wait_time_minutes" (Cell.str "ER"))
            (rowsWithCat ⟨[("patient_class",
                [Cell.str "ER", Cell.str "ICU", Cell.str "ER", Cell.str "Ward"]),
               ("wait_time_minutes", [Cell.num 1, Cell.num 2, Cell.num 3, Cell.num 4])]⟩
              "patient_class" "wait_time_minutes" (Cell.str "ICU"))
            false)) := by
  refine ⟨by decide, ?_⟩
  exact (claim_C8 (fun x y e => (x, y, e))
    ⟨[("patient_class", [Cell.str "ER", Cell.str "ICU", Cell.str "ER", Cell.str "Ward"]),
      ("wait_time_minutes", [Cell.num 1, Cell.num 2, Cell.num 3, Cell.num 4])]⟩
    "patient_class" "wait_time_minutes").1
    (Cell.str "ER") (Cell.str "ICU") [Cell.str "Ward"] (by decide)

/-- Claim C2 (amended): on a DataFrame whose categorical column has at
least two distinct values, `perform_twosample_welch_ttest` partitions
the numeric column into the two samples of the first two category
values, delegates to the library t-test with `equal_var = False` (the
`false` argument), and returns the library's result unchanged — this
holds for an arbitrary library function `ttest_ind`; with exactly two
distinct category values, the two samples cover every row. -/
theorem claim_C2 {α : Type} (ttest_ind : List Cell → List Cell → Bool → α)
    (df : DataFrame) (c n : String) (c0 c1 : Cell) (crest : List Cell)
    (h : uniqueInOrder (df.col c) = c0 :: c1 :: crest) :
    perform_twosample_welch_ttest ttest_ind df c n
      = some (ttest_ind (rowsWithCat df c n c0) (rowsWithCat df c n c1) false) ∧
    (crest = [] →
      (rowsWithCat df c n c0).length + (rowsWithCat df c n c1).length
        = ((df.col c).zip (df.col n)).length) := by
  constructor
  · unfold perform_twosample_welch_ttest
    rw [h]
  · rintro rfl
    have hnd := uniqueInOrder_nodup (df.col c)
    rw [h] at hnd
    have hne : c0 ≠ c1 := by
      have h1 := (List.nodup_cons.mp hnd).1
      intro hc
      exact h1 (by rw [hc]; exact List.mem_cons_self c1 [])
    have hall : ∀ r ∈ (df.col c).zip (df.col n), r.1 = c0 ∨ r.1 = c1 := by
      rintro ⟨a, b⟩ hr
      have hmem : a ∈ df.col c := (List.of_mem_zip hr).1
      have hu := uniqueInOrder_mem (df.col c) a hmem
      rw [h] at hu
      rcases List.mem_cons.mp hu with h1 | h1
      · exact Or.inl h1
      · rcases List.mem_cons.mp h1 with h2 | h2
        · exact Or.inr h2
        · simp at h2
    unfold rowsWithCat
    rw [List.length_map, List.length_map]
    exact filter_two_length _ c0 c1 hne hall

/-- Witness for C2 at a concrete two-category DataFrame: the helper
returns the (abstract) library result on the two category samples with
`equal_var = False`, and the two samples cover all rows. -/
theorem claim_C2_witness :
    uniqueInOrder ((DataFrame.mk
        [("aidoc_result", [Cell.str "positive", Cell.str "negative", Cell.str "positive"]),
         ("wait_time_minutes", [Cell.num 5, Cell.num 7, Cell.num 9])]).col "aidoc_result")
      = [Cell.str "positive", Cell.str "negative"] ∧
    (perform_twosample_welch_ttest (fun x y e => (x, y, e))
        ⟨[("aidoc_result", [Cell.str "positive", Cell.str "negative", Cell.str "positive"]),
          ("wait_time_minutes", [Cell.num 5, Cell.num 7, Cell.num 9])]⟩
        "aidoc_result" "wait_time_minutes"
      = some ((fun x y e => (x, y, e))
          (rowsWithCat ⟨[("aidoc_result",
              [Cell.str "positive", Cell.str "negative", Cell.str "positive"]),
             ("wait_time_minutes", [Cell.num 5, Cell.num 7, Cell.num 9])]⟩
            "aidoc_result" "wait_time_minutes" (Cell.str "positive"))
          (rowsWithCat ⟨[("aidoc_result",
              [Cell.str "positive", Cell.str "negative", Cell.str "positive"]),
             ("wait_time_minutes", [Cell.num 5, Cell.num 7, Cell.num 9])]⟩
            "aidoc_result" "wait_time_minutes" (Cell.str "negative"))
          false) ∧
      (([] : List Cell) = [] →
        (rowsWithCat ⟨[("aidoc_result",
            [Cell.str "positive", Cell.str "negative", Cell.str "positive"]),
           ("wait_time_minutes", [Cell.num 5, Cell.num 7, Cell.num 9])]⟩
          "aidoc_result" "wait_time_minutes" (Cell.str "positive")).length
        + (rowsWithCat ⟨[("aidoc_result",
            [Cell.str "positive", Cell.str "negative", Cell.str "positive"]),
           ("wait_time_minutes", [Cell.num 5, Cell.num 7, Cell.num 9])]⟩
          "aidoc_result" "wait_time_minutes" (Cell.str "negative")).length
        = (((DataFrame.mk
            [("aidoc_result", [Cell.str "positive", Cell.str "negative", Cell.str "positive"]),
             ("wait_time_minutes", [Cell.num 5, Cell.num 7, Cell.num 9])]).col
            "aidoc_result").zip
           ((DataFrame.mk
            [("aidoc_result", [Cell.str "positive", Cell.str "negative", Cell.str "positive"]),
             ("wait_time_minutes", [Cell.num 5, Cell.num 7, Cell.num 9])]).col
            "wait_time_minutes")).length)) :=
  ⟨by decide,
   claim_C2 (fun x y e => (x, y, e))
    ⟨[("aidoc_result", [Cell.str "positive", Cell.str "negative", Cell.str "positive"]),
      ("wait_time_minutes", [Cell.num 5, Cell.num 7, Cell.num 9])]⟩
    "aidoc_result" "wait_time_minutes"
    (Cell.str "positive") (Cell.str "negative") [] (by decide)⟩

/-- Counterexample to C2 as stated: on a DataFrame whose categorical
column holds a single category, the helper does not return any library
result — indexing the second category fails — so the claim's "for every
DataFrame" is too strong. -/
theorem claim_C2_counterexample :
    perform_twosample_welch_ttest (fun _ _ _ => (0 : Nat))
      ⟨[("patient_class", [Cell.str "Emergency", Cell.str "Emergency"]),
        ("wait_time_minutes", [Cell.num 10, Cell.num 20])]⟩
      "patient_class" "wait_time_minutes" = none := by decide

theorem parseColumn_pointwise (fmt : String) :
    ∀ (cells parsed : List Cell), parseColumn fmt cells = some parsed →
      parsed.length = cells.length ∧
      ∀ (i : Nat) (ce : Cell), cells[i]? = some ce →
        ∃ d, parseCell fmt ce = some d ∧ parsed[i]? = some d := by
  intro cells
  induction cells with
  | nil =>
    intro parsed h
    simp only [parseColumn, Option.some_inj] at h
    subst h
    exact ⟨rfl, fun i ce hc => by simp at hc⟩
  | cons c cs ih =>
    intro parsed h
    unfold parseColumn at h
    cases hp : parseCell fmt c with
    | none =>
      rw [hp] at h
      simp at h
    | some d =>
      cases hq : parseColumn fmt cs with
      | none =>
        rw [hp, hq] at h
        simp at h
      | some ds =>
        rw [hp, hq] at h
        simp only [Option.some_inj] at h
        subst h
        obtain ⟨hlen, hidx⟩ := ih ds hq
        refine ⟨by simp [hlen], ?_⟩
        intro i ce hc
        match i with
        | 0 =>
          simp only [List.getElem?_cons_zero, Option.some_inj] at hc
          subst hc
          exact ⟨d, hp, by simp⟩
        | j + 1 =>
          simp only [List.getElem?_cons_succ] at hc ⊢
          exact hidx j ce hc

theorem parseColumn_none (fmt : String) :
    ∀ (cells : List Cell), (∃ ce ∈ cells, parseCell fmt ce = none) →
      parseColumn fmt cells = none := by
  intro cells
  induction cells with
  | nil =>
    rintro ⟨ce, hce, _⟩
    simp at hce
  | cons c cs ih =>
    rintro ⟨ce, hce, hparse⟩
    rcases List.mem_cons.mp hce with rfl | hmem
    · unfold parseColumn
      rw [hparse]
    · have hr := ih ⟨ce, hmem, hparse⟩
      unfold parseColumn
      rw [hr]
      cases parseCell fmt c <;> rfl

theorem find?_append_some {α : Type} {p : α → Bool} {l1 l2 : List α} {a : α}
    (h : l1.find? p = some a) : (l1 ++ l2).find? p = some a := by
  induction l1 with
  | nil => simp [List.find?] at h
  | cons x xs ih =>
    cases hp : p x with
    | true =>
      rw [List.find?_cons_of_pos _ hp] at h
      rw [List.cons_append, List.find?_cons_of_pos _ hp]
      exact h
    | false =>
      rw [List.find?_cons_of_neg _ (by simp [hp])] at h
      rw [List.cons_append, List.find?_cons_of_neg _ (by simp [hp])]
      exact ih h

theorem find?_append_none {α : Type} {p : α → Bool} {l1 l2 : List α}
    (h : l1.find? p = none) : (l1 ++ l2).find? p = l2.find? p := by
  induction l1 with
  | nil => simp
  | cons x xs ih =>
    cases hp : p x with
    | true =>
      rw [List.find?_cons_of_pos _ hp] at h
      simp at h
    | false =>
      rw [List.find?_cons_of_neg _ (by simp [hp])] at h
      rw [List.cons_append, List.find?_cons_of_neg _ (by simp [hp])]
      exact ih h

theorem find?_cols_assign (cols : List (String × List Cell)) (name : String)
    (vals cells : List Cell) (a : String)
    (h : cols.find? (fun c => c.1 == name) = some (a, cells)) :
    (cols.map (fun c => if c.1 == name then (c.1, vals) else c)).find?
      (fun c => c.1 == name) = some (a, vals) := by
  induction cols with
  | nil => simp [List.find?] at h
  | cons c cs ih =>
    obtain ⟨c1, c2⟩ := c
    by_cases hb : c1 = name
    · subst hb
      rw [@List.find?_cons_of_pos _ (fun q => q.1 == c1) (c1, c2) cs (by simp)] at h
      simp only [Option.some_inj, Prod.mk.injEq] at h
      obtain ⟨rfl, rfl⟩ := h
      simp [List.find?_cons]
    · have hb2 : (c1 == name) = false := by simp [hb]
      rw [@List.find?_cons_of_neg _ (fun q => q.1 == name) (c1, c2) cs (by simp [hb])] at h
      simp only [List.map_cons]
      simp only [List.find?_cons, hb2, Bool.false_eq_true, if_false]
      exact ih h

theorem assign_cols_of_any (df : DataFrame) (name : String) (vals : List Cell)
    (h : df.cols.any (fun c => c.1 == name) = true) :
    (df.assign name vals).cols
      = df.cols.map (fun c => if c.1 == name then (c.1, vals) else c) := by
  unfold DataFrame.assign
  rw [if_pos h]

theorem assign_names_of_any (df : DataFrame) (name : String) (vals : List Cell)
    (h : df.cols.any (fun c => c.1 == name) = true) :
    (df.assign name vals).cols.map Prod.fst = df.cols.map Prod.fst := by
  rw [assign_cols_of_any df name vals h, List.map_map]
  congr 1
  funext c
  by_cases hb : c.1 = name <;> simp [hb]

/-- Claim C4 (amended): on a DataFrame whose datetime column's strings
all parse under the given format, `add_dt_to_df` adds exactly one new
column, named `colname ++ "_" ++ dt_mo`, whose value in each row is the
month rendering (`strftime dt_mo_fmt`) of that row's parsed datetime;
every column other than the datetime column is left unchanged, while
the datetime column itself is converted in place to its parsed datetime
values (which is where the claim as stated fails). -/
theorem claim_C4 (df : DataFrame) (colname dt_format dt_mo dt_mo_fmt : String)
    (cells parsed : List Cell)
    (hfind : df.cols.find? (fun c => c.1 == colname) = some (colname, cells))
    (hparse : parseColumn dt_format cells = some parsed)
    (hfresh : (colname ++ "_" ++ dt_mo) ∉ df.cols.map Prod.fst) :
    ∃ df', add_dt_to_df df colname dt_format dt_mo dt_mo_fmt = some df' ∧
      df'.cols.length = df.cols.length + 1 ∧
      df'.col (colname ++ "_" ++ dt_mo) = monthColumn dt_mo_fmt parsed ∧
      (∀ (i : Nat) (s : String), cells[i]? = some (Cell.str s) →
        ∃ d, strptime dt_format s = some d ∧
          (df'.col (colname ++ "_" ++ dt_mo))[i]? = some (Cell.str (strftime dt_mo_fmt d))) ∧
      df'.col colname = parsed ∧
      (∀ p ∈ df.cols, p.1 ≠ colname → p ∈ df'.cols) := by
  have hany : df.cols.any (fun c => c.1 == colname) = true :=
    List.any_eq_true.mpr ⟨(colname, cells), List.mem_of_find?_eq_some hfind,
      @List.find?_some _ (fun c => c.1 == colname) (colname, cells) df.cols hfind⟩
  have hcols1 : (df.assign colname parsed).cols
      = df.cols.map (fun c => if c.1 == colname then (c.1, parsed) else c) :=
    assign_cols_of_any df colname parsed hany
  have hnames1 : (df.assign colname parsed).cols.map Prod.fst = df.cols.map Prod.fst :=
    assign_names_of_any df colname parsed hany
  have hfresh1 : (colname ++ "_" ++ dt_mo) ∉ (df.assign colname parsed).cols.map Prod.fst := by
    rw [hnames1]
    exact hfresh
  have hany2 : (df.assign colname parsed).cols.any
      (fun c => c.1 == (colname ++ "_" ++ dt_mo)) = false := by
    cases hb : (df.assign colname parsed).cols.any
        (fun c => c.1 == (colname ++ "_" ++ dt_mo)) with
    | false => rfl
    | true =>
      obtain ⟨x, hx, hpx⟩ := List.any_eq_true.mp hb
      have hx1 : x.1 = colname ++ "_" ++ dt_mo := by simpa using hpx
      exact absurd (hx1 ▸ List.mem_map_of_mem Prod.fst hx) hfresh1
  have hassign2 : (df.assign colname parsed).assign (colname ++ "_" ++ dt_mo)
        (monthColumn dt_mo_fmt parsed)
      = ⟨(df.assign colname parsed).cols
          ++ [(colname ++ "_" ++ dt_mo, monthColumn dt_mo_fmt parsed)]⟩ := by
    generalize (df.assign colname parsed) = df1 at hany2
    unfold DataFrame.assign
    rw [hany2]
    simp
  have hdf' : add_dt_to_df df colname dt_format dt_mo dt_mo_fmt
      = some ⟨(df.assign colname parsed).cols
          ++ [(colname ++ "_" ++ dt_mo, monthColumn dt_mo_fmt parsed)]⟩ := by
    simp only [add_dt_to_df, hfind, hparse]
    rw [hassign2]
  have hfindnone : (df.assign colname parsed).cols.find?
      (fun c => c.1 == (colname ++ "_" ++ dt_mo)) = none := by
    rw [List.find?_eq_none]
    intro x hx hpx
    have hx1 : x.1 = colname ++ "_" ++ dt_mo := by simpa using hpx
    exact hfresh1 (hx1 ▸ List.mem_map_of_mem Prod.fst hx)
  have hcolnew : (DataFrame.mk ((df.assign colname parsed).cols
        ++ [(colname ++ "_" ++ dt_mo, monthColumn dt_mo_fmt parsed)])).col
        (colname ++ "_" ++ dt_mo) = monthColumn dt_mo_fmt parsed := by
    unfold DataFrame.col
    rw [find?_append_none hfindnone]
    simp [List.find?_cons]
  have hfind1 : (df.assign colname parsed).cols.find? (fun c => c.1 == colname)
      = some (colname, parsed) := by
    rw [hcols1]
    exact find?_cols_assign df.cols colname parsed cells colname hfind
  have hcolcol : (DataFrame.mk ((df.assign colname parsed).cols
        ++ [(colname ++ "_" ++ dt_mo, monthColumn dt_mo_fmt parsed)])).col colname
      = parsed := by
    unfold DataFrame.col
    rw [find?_append_some hfind1]
  have hlen : (DataFrame.mk ((df.assign colname parsed).cols
        ++ [(colname ++ "_" ++ dt_mo, monthColumn dt_mo_fmt parsed)])).cols.length
      = df.cols.length + 1 := by
    show ((df.assign colname parsed).cols ++ _).length = _
    rw [List.length_append, hcols1, List.length_map]
    rfl
  obtain ⟨hplen, hpidx⟩ := parseColumn_pointwise dt_format cells parsed hparse
  have hmonth : ∀ (i : Nat) (s : String), cells[i]? = some (Cell.str s) →
      ∃ d, strptime dt_format s = some d ∧
        (monthColumn dt_mo_fmt parsed)[i]? = some (Cell.str (strftime dt_mo_fmt d)) := by
    intro i s hc
    obtain ⟨dc, hdc, hpi⟩ := hpidx i (Cell.str s) hc
    unfold parseCell at hdc
    obtain ⟨d, hd, rfl⟩ := Option.map_eq_some'.mp hdc
    refine ⟨d, hd, ?_⟩
    unfold monthColumn
    rw [List.getElem?_map, hpi]
    rfl
  refine ⟨_, hdf', hlen, hcolnew, ?_, hcolcol, ?_⟩
  · intro i s hc
    rw [hcolnew]
    exact hmonth i s hc
  · intro p hp hpne
    apply List.mem_append_left
    rw [hcols1]
    have hgp : (if p.1 == colname then (p.1, parsed) else p) = p := by
      rw [if_neg]
      simp [hpne]
    have hm := List.mem_map_of_mem
      (fun c => if c.1 == colname then (c.1, parsed) else c) hp
    simpa only [hgp] using hm

/-- Counterexample to C4 as stated: `add_dt_to_df` does not leave all
other columns' values unchanged — the datetime column itself is
converted in place, so after the call it no longer holds its original
string values. -/
theorem claim_C4_counterexample :
    add_dt_to_df
        ⟨[("study_aquistion_time", [Cell.str "2023-01-15 10:30:00"])]⟩
        "study_aquistion_time" "%Y-%m-%d %H:%M:%S" "month" "%B"
      = some ⟨[("study_aquistion_time", [Cell.dt ⟨2023, 1, 15, 10, 30, 0⟩]),
              ("study_aquistion_time_month", [Cell.str "January"])]⟩ ∧
    (DataFrame.mk [("study_aquistion_time", [Cell.dt ⟨2023, 1, 15, 10, 30, 0⟩]),
        ("study_aquistion_time_month", [Cell.str "January"])]).col "study_aquistion_time"
      ≠ (DataFrame.mk [("study_aquistion_time",
          [Cell.str "2023-01-15 10:30:00"])]).col "study_aquistion_time" :=
  ⟨by decide, by decide⟩

/-- Witness for C4: the representative input string
"2023-01-15 10:30:00" yields the month label "January" in the single
added column, and all hypotheses hold at this concrete DataFrame. -/
theorem claim_C4_witness :
    (DataFrame.mk [("study_aquistion_time", [Cell.str "2023-01-15 10:30:00"]),
        ("aidoc_site", [Cell.str "HV"])]).cols.find?
        (fun c => c.1 == "study_aquistion_time")
      = some ("study_aquistion_time", [Cell.str "2023-01-15 10:30:00"]) ∧
    parseColumn "%Y-%m-%d %H:%M:%S" [Cell.str "2023-01-15 10:30:00"]
      = some [Cell.dt ⟨2023, 1, 15, 10, 30, 0⟩] ∧
    ("study_aquistion_time" ++ "_" ++ "month")
      ∉ (DataFrame.mk [("study_aquistion_time", [Cell.str "2023-01-15 10:30:00"]),
          ("aidoc_site", [Cell.str "HV"])]).cols.map Prod.fst ∧
    (∃ df', add_dt_to_df
        ⟨[("study_aquistion_time", [Cell.str "2023-01-15 10:30:00"]),
          ("aidoc_site", [Cell.str "HV"])]⟩
        "study_aquistion_time" "%Y-%m-%d %H:%M:%S" "month" "%B" = some df' ∧
      df'.cols.length = (DataFrame.mk [("study_aquistion_time",
          [Cell.str "2023-01-15 10:30:00"]), ("aidoc_site", [Cell.str "HV"])]).cols.length + 1 ∧
      df'.col ("study_aquistion_time" ++ "_" ++ "month")
        = monthColumn "%B" [Cell.dt ⟨2023, 1, 15, 10, 30, 0⟩] ∧
      (∀ (i : Nat) (s : String),
        [Cell.str "2023-01-15 10:30:00"][i]? = some (Cell.str s) →
        ∃ d, strptime "%Y-%m-%d %H:%M:%S" s = some d ∧
          (df'.col ("study_aquistion_time" ++ "_" ++ "month"))[i]?
            = some (Cell.str (strftime "%B" d))) ∧
      df'.col "study_aquistion_time" = [Cell.dt ⟨2023, 1, 15, 10, 30, 0⟩] ∧
      (∀ p ∈ (DataFrame.mk [("study_aquistion_time", [Cell.str "2023-01-15 10:30:00"]),
          ("aidoc_site", [Cell.str "HV"])]).cols,
        p.1 ≠ "study_aquistion_time" → p ∈ df'.cols)) ∧
    monthColumn "%B" [Cell.dt ⟨2023, 1, 15, 10, 30, 0⟩] = [Cell.str "January"] :=
  ⟨by decide, by decide, by decide,
   claim_C4 ⟨[("study_aquistion_time", [Cell.str "2023-01-15 10:30:00"]),
      ("aidoc_site", [Cell.str "HV"])]⟩
     "study_aquistion_time" "%Y-%m-%d %H:%M:%S" "month" "%B"
     [Cell.str "2023-01-15 10:30:00"] [Cell.dt ⟨2023, 1, 15, 10, 30, 0⟩]
     (by decide) (by decide) (by decide),
   by decide⟩

/-- Claim C6: a row whose datetime string does not parse under the
supplied format makes `add_dt_to_df` fail with no partial result, and
the failure propagates through the main script's datetime loop,
halting the run. -/
theorem claim_C6 (df : DataFrame) (colname dt_format dt_mo dt_mo_fmt : String)
    (cells : List Cell)
    (hfind : df.cols.find? (fun c => c.1 == colname) = some (colname, cells))
    (hbad : ∃ ce ∈ cells, parseCell dt_format ce = none) :
    add_dt_to_df df colname dt_format dt_mo dt_mo_fmt = none ∧
    ∀ rest, applyDtColumns dt_mo dt_mo_fmt df ((colname, dt_format) :: rest) = none := by
  have hnone := parseColumn_none dt_format cells hbad
  have h1 : add_dt_to_df df colname dt_format dt_mo dt_mo_fmt = none := by
    simp only [add_dt_to_df, hfind, hnone]
  refine ⟨h1, fun rest => ?_⟩
  simp only [applyDtColumns, h1]

/-- Witness for C6: a concrete unparseable case-open time halts both
the helper and the datetime loop. -/
theorem claim_C6_witness :
    add_dt_to_df ⟨[("case_open_time", [Cell.str "not-a-date"])]⟩
        "case_open_time" "%Y-%m-%d %H:%M:%S" "month" "%B" = none ∧
    ∀ rest, applyDtColumns "month" "%B" ⟨[("case_open_time", [Cell.str "not-a-date"])]⟩
        (("case_open_time", "%Y-%m-%d %H:%M:%S") :: rest) = none :=
  claim_C6 ⟨[("case_open_time", [Cell.str "not-a-date"])]⟩
    "case_open_time" "%Y-%m-%d %H:%M:%S" "month" "%B" [Cell.str "not-a-date"]
    (by decide) ⟨Cell.str "not-a-date", by decide, by decide⟩

end Radiology
